import Mathlib

/-!
# TicketBoard frontend — shallow embedding and verification

This file embeds the client-side logic of the `ticketboard-frontend`
repository in Lean 4 and proves properties of it:

* the axios HTTP client wrapper and its response interceptor
  (`src/services/api.js`),
* the browser `localStorage` operations it uses,
* the `useTickets`, `useAuth` and `useApiHealth` hooks
  (`src/hooks/*.js` as produced by `migrate-to-vite.sh`),
* the two minimal fetch-based API revisions (`src/api.js`) and the
  minimal `App` component's `handleAdd` handler.

Machine-level concerns (the event loop, real network I/O, the DOM) are
abstracted: a network call's outcome is passed to each embedded function
as an explicit `Except`-valued argument, browser storage and the current
location are explicit state, and the list of HTTP requests a code path
issues is returned as data.
-/

namespace TicketBoard

/-! ## Browser local storage

`localStorage` is a string-keyed map; we embed it as an association list
with the three operations the code uses: `getItem`, `setItem`,
`removeItem`.  `getItem` returns `none` where JavaScript returns `null`.
-/

/-- Browser `localStorage`: an association list of key/value pairs. -/
abbrev Storage : Type := List (String × String)

/-- `localStorage.getItem(k)`: first value stored under `k`, if any. -/
def Storage.getItem (s : Storage) (k : String) : Option String :=
  List.lookup k s

/-- `localStorage.removeItem(k)`: deletes every entry under `k`. -/
def Storage.removeItem (s : Storage) (k : String) : Storage :=
  List.filter (fun p => p.1 ≠ k) s

/-- `localStorage.setItem(k, v)`: overwrites the value under `k`. -/
def Storage.setItem (s : Storage) (k v : String) : Storage :=
  (k, v) :: Storage.removeItem s k

theorem Storage.getItem_removeItem (s : Storage) (k : String) :
    Storage.getItem (Storage.removeItem s k) k = none := by
  induction s with
  | nil => rfl
  | cons p t ih =>
    by_cases h : p.1 = k
    · simpa [Storage.removeItem, Storage.getItem, List.filter_cons, h]
        using ih
    · have hk : (k == p.1) = false := beq_eq_false_iff_ne.mpr (Ne.symm h)
      simpa [Storage.removeItem, Storage.getItem, List.filter_cons, h,
        List.lookup, hk] using ih

theorem Storage.getItem_removeItem_ne (s : Storage) (k k' : String)
    (h : k' ≠ k) :
    Storage.getItem (Storage.removeItem s k) k' = Storage.getItem s k' := by
  induction s with
  | nil => rfl
  | cons p t ih =>
    by_cases hp : p.1 = k
    · have hk : (k' == p.1) = false := by
        refine beq_eq_false_iff_ne.mpr ?_
        rw [hp]; exact h
      have hkk : (k' == k) = false := beq_eq_false_iff_ne.mpr h
      simpa [Storage.removeItem, Storage.getItem, List.filter_cons, hp,
        List.lookup, hk, hkk] using ih
    · by_cases hk : k' = p.1
      · simp [Storage.removeItem, Storage.getItem, List.filter_cons, hp,
          List.lookup, hk]
      · have hk2 : (k' == p.1) = false := beq_eq_false_iff_ne.mpr hk
        simpa [Storage.removeItem, Storage.getItem, List.filter_cons, hp,
          List.lookup, hk2] using ih

/-! ## Data model -/

/-- A ticket record as used by the hooks and views: server-assigned
identifier plus the displayed fields. -/
structure Ticket where
  id : Nat
  title : String
  description : String
  priority : String
  status : String
deriving DecidableEq, Repr

/-- A user record from the auth endpoints. -/
structure User where
  username : String
  email : String
deriving DecidableEq, Repr

/-- An axios error as the interceptor and the hooks see it:
`error.response?.status` and `error.response?.data?.message`.  Both are
optional because a transport failure has no response at all. -/
structure ApiError where
  respStatus : Option Nat
  respMessage : Option String
deriving DecidableEq, Repr

/-! ## HTTP client wrapper (`src/services/api.js`) -/

/-- HTTP methods used by the service modules. -/
inductive Method where
  | get
  | post
  | put
  | delete
deriving DecidableEq, Repr

/-- A request issued through the axios instance: method and path
relative to the configured base URL. -/
structure ApiRequest where
  method : Method
  path : String
deriving DecidableEq, Repr

/-- The mutable client-visible browser state the interceptor touches:
local storage and `window.location.href`. -/
structure ClientState where
  storage : Storage
  locationHref : Option String
deriving DecidableEq

/-- The axios response interceptor's error branch:

```js
(error) => {
  if (error.response?.status === 401) {
    localStorage.removeItem('authToken');
    window.location.href = '/login';
  }
  return Promise.reject(error);
}
```

Returns the new browser state together with the rejected error. -/
def interceptResponseError (s : ClientState) (e : ApiError) :
    ClientState × Except ApiError Unit :=
  if e.respStatus = some 401 then
    ({ storage := Storage.removeItem s.storage "authToken",
       locationHref := some "/login" }, Except.error e)
  else
    (s, Except.error e)

/-! ## Service modules (Vite revision, `migrate-to-vite.sh` §9)

Each service function issues exactly one REST call through the axios
instance; we embed the request it constructs. -/

/-- `ticketService.getAllTickets: () => api.get('/api/tickets')`. -/
def ticketService.getAllTicketsReq : ApiRequest :=
  { method := Method.get, path := "/api/tickets" }

/-- `ticketService.createTicket: (ticketData) => api.post('/api/tickets', ticketData)`. -/
def ticketService.createTicketReq : ApiRequest :=
  { method := Method.post, path := "/api/tickets" }

/-- `ticketService.updateTicket: (id, ticketData) => api.put('/api/tickets/{id}', ticketData)`. -/
def ticketService.updateTicketReq (id : Nat) : ApiRequest :=
  { method := Method.put, path := "/api/tickets/" ++ toString id }

/-- `ticketService.deleteTicket: (id) => api.delete('/api/tickets/{id}')`. -/
def ticketService.deleteTicketReq (id : Nat) : ApiRequest :=
  { method := Method.delete, path := "/api/tickets/" ++ toString id }

/-- `authService.logout` (minimal axios revision, `src/src/services/api.js`):

```js
logout: () => {
  localStorage.removeItem('authToken');
  return Promise.resolve();
}
```

Returns the new storage, the already-resolved promise value, and the
list of network requests issued (none). -/
def authService.logout (s : Storage) :
    Storage × Except ApiError Unit × List ApiRequest :=
  (Storage.removeItem s "authToken", Except.ok (), [])

/-! ## `useTickets` hook (`src/hooks/useTickets.js`) -/

/-- The state triple maintained by `useTickets`. -/
structure TicketsState where
  tickets : List Ticket
  loading : Bool
  error : Option String
deriving DecidableEq, Repr

/-- The plain object a `useTickets` mutator returns to its caller:
`{success, data?, error?}`. -/
structure MutationResult where
  success : Bool
  data : Option Ticket
  error : Option String
deriving DecidableEq, Repr

/-- `err.response?.data?.message || fallback`: the human-readable
message a hook derives from a failed call. -/
def hookErrorMessage (e : ApiError) (fallback : String) : String :=
  e.respMessage.getD fallback

/-- `useTickets.fetchTickets`, applied to the outcome of
`ticketService.getAllTickets()`:

```js
try { setLoading(true); setError(null);
      const response = await ticketService.getAllTickets();
      setTickets(response.data); }
catch (err) { setError(err.response?.data?.message || 'Error al cargar tickets'); }
finally { setLoading(false); }
``` -/
def useTickets.fetchTickets (res : Except ApiError (List Ticket))
    (s : TicketsState) : TicketsState :=
  match res with
  | Except.ok data => { tickets := data, loading := false, error := none }
  | Except.error err =>
      { s with loading := false,
               error := some (hookErrorMessage err "Error al cargar tickets") }

/-- `useTickets.createTicket`, applied to the outcome of
`ticketService.createTicket(ticketData)`:

```js
try { const response = await ticketService.createTicket(ticketData);
      setTickets(prev => [response.data, ...prev]);
      return { success: true, data: response.data }; }
catch (err) { const errorMsg = err.response?.data?.message || 'Error al crear ticket';
              return { success: false, error: errorMsg }; }
```

Returns the new state, the result object, and the requests issued. -/
def useTickets.createTicket (res : Except ApiError Ticket)
    (s : TicketsState) : TicketsState × MutationResult × List ApiRequest :=
  match res with
  | Except.ok data =>
      ({ s with tickets := data :: s.tickets },
       { success := true, data := some data, error := none },
       [ticketService.createTicketReq])
  | Except.error err =>
      (s,
       { success := false, data := none,
         error := some (hookErrorMessage err "Error al crear ticket") },
       [ticketService.createTicketReq])

/-- `useTickets.updateTicket`:

```js
try { const response = await ticketService.updateTicket(id, ticketData);
      setTickets(prev => prev.map(ticket => ticket.id === id ? response.data : ticket));
      return { success: true, data: response.data }; }
catch (err) { const errorMsg = err.response?.data?.message || 'Error al actualizar ticket';
              return { success: false, error: errorMsg }; }
``` -/
def useTickets.updateTicket (id : Nat) (res : Except ApiError Ticket)
    (s : TicketsState) : TicketsState × MutationResult × List ApiRequest :=
  match res with
  | Except.ok data =>
      ({ s with tickets :=
           s.tickets.map (fun ticket => if ticket.id = id then data else ticket) },
       { success := true, data := some data, error := none },
       [ticketService.updateTicketReq id])
  | Except.error err =>
      (s,
       { success := false, data := none,
         error := some (hookErrorMessage err "Error al actualizar ticket") },
       [ticketService.updateTicketReq id])

/-- `useTickets.deleteTicket`:

```js
try { await ticketService.deleteTicket(id);
      setTickets(prev => prev.filter(ticket => ticket.id !== id));
      return { success: true }; }
catch (err) { const errorMsg = err.response?.data?.message || 'Error al eliminar ticket';
              return { success: false, error: errorMsg }; }
``` -/
def useTickets.deleteTicket (id : Nat) (res : Except ApiError Unit)
    (s : TicketsState) : TicketsState × MutationResult × List ApiRequest :=
  match res with
  | Except.ok _ =>
      ({ s with tickets := s.tickets.filter (fun ticket => ticket.id ≠ id) },
       { success := true, data := none, error := none },
       [ticketService.deleteTicketReq id])
  | Except.error err =>
      (s,
       { success := false, data := none,
         error := some (hookErrorMessage err "Error al eliminar ticket") },
       [ticketService.deleteTicketReq id])

/-! ## `useApiHealth` hook (`src/hooks/useApiHealth.js`) -/

/-- Status of one probe target, as stored by the hook. -/
inductive HealthStatus where
  | checking
  | healthy
  | unhealthy
deriving DecidableEq, Repr

/-- The pair of statuses the hook exposes. -/
structure HealthState where
  backendStatus : HealthStatus
  dbStatus : HealthStatus
deriving DecidableEq, Repr

/-- One run of `checkHealth`, applied to the outcomes of the two probes
(`backendOk` is whether `healthService.checkBackend()` resolves, `dbOk`
whether `healthService.checkDatabase()` resolves):

```js
try { await healthService.checkBackend();  setBackendStatus('healthy');
      await healthService.checkDatabase(); setDbStatus('healthy'); }
catch (error) { setBackendStatus('unhealthy'); setDbStatus('unhealthy'); }
```

The `catch` covers both awaits, so a database failure rewrites the
backend status as well; when the backend probe rejects, the database
probe is never attempted.  The function is total: the run never
throws. -/
def useApiHealth.checkHealth (backendOk dbOk : Bool) (s : HealthState) :
    HealthState :=
  if backendOk then
    let s1 := { s with backendStatus := HealthStatus.healthy }
    if dbOk then
      { s1 with dbStatus := HealthStatus.healthy }
    else
      { backendStatus := HealthStatus.unhealthy,
        dbStatus := HealthStatus.unhealthy }
  else
    { backendStatus := HealthStatus.unhealthy,
      dbStatus := HealthStatus.unhealthy }

/-! ## `useAuth` hook (`src/hooks/useAuth.js`) -/

/-- The successful payload of `POST /api/auth/login`: `{token, user}`. -/
structure LoginData where
  token : String
  user : User
deriving DecidableEq, Repr

/-- The object `useAuth.login` returns: `{success}` or
`{success: false, error}`. -/
structure AuthResult where
  success : Bool
  error : Option String
deriving DecidableEq, Repr

/-- The session state owned by `AuthProvider`: persisted storage plus
the in-memory `user`. -/
structure AuthState where
  storage : Storage
  user : Option User
deriving DecidableEq

/-- `isAuthenticated: !!user`. -/
def useAuth.isAuthenticated (s : AuthState) : Bool :=
  s.user.isSome

/-- `useAuth.login`, applied to the outcome of
`authService.login(credentials)`:

```js
try { const response = await authService.login(credentials);
      const { token, user } = response.data;
      localStorage.setItem('authToken', token);
      setUser(user);
      return { success: true }; }
catch (error) { return { success: false,
                         error: error.response?.data?.message || 'Error en el login' }; }
``` -/
def useAuth.login (res : Except ApiError LoginData) (s : AuthState) :
    AuthState × AuthResult :=
  match res with
  | Except.ok d =>
      ({ storage := Storage.setItem s.storage "authToken" d.token,
         user := some d.user },
       { success := true, error := none })
  | Except.error e =>
      (s, { success := false,
            error := some (hookErrorMessage e "Error en el login") })

/-! ## Minimal fetch-based API revisions (`src/api.js`, two revisions)

Revision "cra" is the Create-React-App one
(`REACT_APP_API_URL || "http://localhost:3000"`); revision "proxy" adds
the production nginx-proxy branch
(`NODE_ENV === 'production' ? '/api' : (REACT_APP_API_URL || 'http://localhost:3000')`).
-/

/-- A JSON value, used for request bodies and parsed responses. -/
inductive Json where
  | null
  | bool (b : Bool)
  | num (n : Int)
  | str (s : String)
  | arr (elems : List Json)
  | obj (fields : List (String × Json))

/-- A request as built by the `fetch`-based revisions. -/
structure FetchRequest where
  url : String
  httpMethod : String
  headers : List (String × String)
  body : Option Json

/-- The build-time environment the two revisions read. -/
structure Env where
  nodeEnv : Option String
  reactAppApiUrl : Option String
deriving DecidableEq, Repr

/-- `const API_BASE_URL = process.env.REACT_APP_API_URL || "http://localhost:3000"`. -/
def apiBaseUrlCra (env : Env) : String :=
  env.reactAppApiUrl.getD "http://localhost:3000"

/-- `const API_BASE_URL = process.env.NODE_ENV === 'production' ? '/api'
: (process.env.REACT_APP_API_URL || 'http://localhost:3000')`. -/
def apiBaseUrlProxy (env : Env) : String :=
  if env.nodeEnv = some "production" then "/api"
  else env.reactAppApiUrl.getD "http://localhost:3000"

/-- `getTickets` (cra revision): `fetch(API_BASE_URL + "/tickets")` then
`res.json()`.  Given the environment and the response body, returns the
request constructed and the value returned to the caller. -/
def getTicketsCra (env : Env) (respBody : Json) : FetchRequest × Json :=
  ({ url := apiBaseUrlCra env ++ "/tickets", httpMethod := "GET",
     headers := [], body := none }, respBody)

/-- `createTicket(title)` (cra revision): POST with JSON content type and
body `JSON.stringify({title})`, then `res.json()`. -/
def createTicketCra (env : Env) (title : String) (respBody : Json) :
    FetchRequest × Json :=
  ({ url := apiBaseUrlCra env ++ "/tickets", httpMethod := "POST",
     headers := [("Content-Type", "application/json")],
     body := some (Json.obj [("title", Json.str title)]) }, respBody)

/-- `getTickets` (proxy revision): identical except for the base URL. -/
def getTicketsProxy (env : Env) (respBody : Json) : FetchRequest × Json :=
  ({ url := apiBaseUrlProxy env ++ "/tickets", httpMethod := "GET",
     headers := [], body := none }, respBody)

/-- `createTicket(title)` (proxy revision): identical except for the
base URL. -/
def createTicketProxy (env : Env) (title : String) (respBody : Json) :
    FetchRequest × Json :=
  ({ url := apiBaseUrlProxy env ++ "/tickets", httpMethod := "POST",
     headers := [("Content-Type", "application/json")],
     body := some (Json.obj [("title", Json.str title)]) }, respBody)

/-! ## Minimal `App` component (`src/App.js`) -/

/-- JavaScript `String.prototype.trim` whitespace: WhiteSpace and
LineTerminator code points. -/
def isJsWhitespace (c : Char) : Bool :=
  c.val = 9 || c.val = 10 || c.val = 11 || c.val = 12 || c.val = 13 ||
  c.val = 32 || c.val = 0xA0 || c.val = 0x1680 ||
  (0x2000 ≤ c.val && c.val ≤ 0x200A) ||
  c.val = 0x2028 || c.val = 0x2029 || c.val = 0x202F || c.val = 0x205F ||
  c.val = 0x3000 || c.val = 0xFEFF

/-- `s.trim()`: strips leading and trailing JavaScript whitespace. -/
def jsTrim (s : String) : String :=
  String.mk (((s.data.dropWhile isJsWhitespace).reverse.dropWhile
    isJsWhitespace).reverse)

/-- The minimal `App` component's state: the `tickets` and `title`
`useState` pairs.  `tickets` holds whatever parsed JSON the last fetch
returned. -/
structure AppComponentState where
  tickets : Json
  title : String

/-- `App.handleAdd`:

```js
const handleAdd = async () => {
  if (!title.trim()) return;
  await createTicket(title);
  setTitle("");
  fetchTickets();
};
```

`fetched` is the server's (parsed) response to the `getTickets` call
that `fetchTickets` performs; `!title.trim()` is truthy exactly when the
trimmed title is the empty string.  Returns the new component state and
the fetch requests issued, in order. -/
def App.handleAdd (env : Env) (s : AppComponentState)
    (createResp fetched : Json) : AppComponentState × List FetchRequest :=
  if jsTrim s.title = "" then (s, [])
  else
    ({ tickets := fetched, title := "" },
     [(createTicketCra env s.title createResp).1,
      (getTicketsCra env fetched).1])

/-! ## Auxiliary lemmas -/

theorem Storage.getItem_setItem (s : Storage) (k v : String) :
    Storage.getItem (Storage.setItem s k v) k = some v := by
  simp [Storage.setItem, Storage.getItem, List.lookup]

theorem count_filter_ne_id (l : List Ticket) (id : Nat) (tk : Ticket) :
    (l.filter (fun t => t.id ≠ id)).count tk =
      if tk.id = id then 0 else l.count tk := by
  by_cases h : tk.id = id
  · rw [if_pos h, List.count_eq_zero]
    intro hmem
    have := (List.mem_filter.mp hmem).2
    simp [h] at this
  · rw [if_neg h]
    exact List.count_filter (by simp [h])

/-! ## The claims -/

/-- C1.  On any response error with status 401, the interceptor removes
the persisted `authToken` from storage and sets the location to the
login route, and the error is still rejected to the caller; on any
other error the browser state is unchanged and the same error is
rejected. -/
theorem claim_C1_unauthorized_interceptor (s : ClientState) (e : ApiError) :
    (interceptResponseError s e).2 = Except.error e ∧
    (if e.respStatus = some 401 then
       Storage.getItem (interceptResponseError s e).1.storage "authToken"
           = none ∧
         (interceptResponseError s e).1.locationHref = some "/login"
     else (interceptResponseError s e).1 = s) := by
  by_cases h : e.respStatus = some 401
  · refine ⟨by simp [interceptResponseError, h], ?_⟩
    rw [if_pos h]
    exact ⟨by simp [interceptResponseError, h, Storage.getItem_removeItem],
      by simp [interceptResponseError, h]⟩
  · refine ⟨by simp [interceptResponseError, h], ?_⟩
    rw [if_neg h]
    simp [interceptResponseError, h]

/-- C2 (counterexample).  A failing `createTicket` call through
`useTickets` leaves the hook's `error` state untouched (`none` stays
`none`): the human-readable message appears only in the returned result
object, so the claim that the message is stored in the hook's error
state is false. -/
theorem claim_C2_counterexample :
    (useTickets.createTicket
        (Except.error { respStatus := some 500, respMessage := some "boom" })
        { tickets := [], loading := false, error := none }).1.error
      = none ∧
    (useTickets.createTicket
        (Except.error { respStatus := some 500, respMessage := some "boom" })
        { tickets := [], loading := false, error := none }).2.1.error
      = some "boom" := by
  exact ⟨rfl, rfl⟩

/-- C2 (amended).  For every failing create, update or delete call
through the ticket list hook, the failure is caught inside the hook (the
mutator returns normally rather than throwing), a human-readable message
— the server-provided message field if present, else a generic fallback
— is returned to the caller in the result object with `success = false`,
and the hook's state (including its error state) is left unchanged. -/
theorem claim_C2_mutators_catch (s : TicketsState) (e : ApiError) (id : Nat) :
    (useTickets.createTicket (Except.error e) s).1 = s ∧
    (useTickets.createTicket (Except.error e) s).2.1 =
      { success := false, data := none,
        error := some (hookErrorMessage e "Error al crear ticket") } ∧
    (useTickets.updateTicket id (Except.error e) s).1 = s ∧
    (useTickets.updateTicket id (Except.error e) s).2.1 =
      { success := false, data := none,
        error := some (hookErrorMessage e "Error al actualizar ticket") } ∧
    (useTickets.deleteTicket id (Except.error e) s).1 = s ∧
    (useTickets.deleteTicket id (Except.error e) s).2.1 =
      { success := false, data := none,
        error := some (hookErrorMessage e "Error al eliminar ticket") } :=
  ⟨rfl, rfl, rfl, rfl, rfl, rfl⟩

/-- C3 (counterexample).  When the backend probe succeeds but the
database probe fails, the run sets the backend status to `unhealthy`,
not `healthy`: the single `catch` rewrites both statuses, so the two
statuses are not set independently as the claim states. -/
theorem claim_C3_counterexample :
    (useApiHealth.checkHealth true false
        { backendStatus := HealthStatus.checking,
          dbStatus := HealthStatus.checking }).backendStatus
      = HealthStatus.unhealthy ∧
    HealthStatus.unhealthy ≠ HealthStatus.healthy := by
  exact ⟨rfl, by decide⟩

/-- C3 (amended).  Each run of the health check sets both statuses to
`healthy` when both probes succeed, and sets both statuses to
`unhealthy` when either probe fails (when the backend probe fails the
database probe is not attempted); the run is a total function, so it
never throws. -/
theorem claim_C3_health_check (b d : Bool) (s : HealthState) :
    useApiHealth.checkHealth b d s =
      (if b && d then
        { backendStatus := HealthStatus.healthy,
          dbStatus := HealthStatus.healthy }
       else
        { backendStatus := HealthStatus.unhealthy,
          dbStatus := HealthStatus.unhealthy }) := by
  cases b <;> cases d <;> rfl

/-- C4.  A login whose backend call succeeds with `{token, user}`
persists the token under `authToken`, sets the session user (so
`isAuthenticated` is true) and reports success; a failing login leaves
the session state (storage and user) unchanged and returns
`success = false` with a human-readable error string. -/
theorem claim_C4_login (s : AuthState) (d : LoginData) (e : ApiError) :
    Storage.getItem (useAuth.login (Except.ok d) s).1.storage "authToken"
        = some d.token ∧
    (useAuth.login (Except.ok d) s).1.user = some d.user ∧
    useAuth.isAuthenticated (useAuth.login (Except.ok d) s).1 = true ∧
    (useAuth.login (Except.ok d) s).2 = { success := true, error := none } ∧
    (useAuth.login (Except.error e) s).1 = s ∧
    (useAuth.login (Except.error e) s).2 =
      { success := false,
        error := some (hookErrorMessage e "Error en el login") } :=
  ⟨Storage.getItem_setItem s.storage "authToken" d.token,
   rfl, rfl, rfl, rfl, rfl⟩

/-- C5.  A successful create through `useTickets` prepends exactly the
server-returned record to the prior list, leaving the prior elements
unchanged and in order; the only request issued is the create call — in
particular no list re-fetch is performed. -/
theorem claim_C5_create_prepends (s : TicketsState) (t : Ticket) :
    (useTickets.createTicket (Except.ok t) s).1.tickets = t :: s.tickets ∧
    (useTickets.createTicket (Except.ok t) s).2.1 =
      { success := true, data := some t, error := none } ∧
    (useTickets.createTicket (Except.ok t) s).2.2 =
      [ticketService.createTicketReq] ∧
    ((useTickets.createTicket (Except.ok t) s).2.2).count
      ticketService.getAllTicketsReq = 0 := by
  refine ⟨rfl, rfl, rfl, ?_⟩
  simp [useTickets.createTicket, List.count_cons,
    ticketService.createTicketReq, ticketService.getAllTicketsReq]

/-- C6.  A successful update with identifier `id` replaces, at each
position of the local list, the record whose identifier equals `id` by
the server-returned record and leaves every record with a different
identifier unchanged; the list length (hence order) is preserved. -/
theorem claim_C6_update_replaces (s : TicketsState) (id : Nat) (t : Ticket) :
    (useTickets.updateTicket id (Except.ok t) s).1.tickets.length
        = s.tickets.length ∧
    ∀ i : Nat,
      ((useTickets.updateTicket id (Except.ok t) s).1.tickets)[i]? =
        Option.map (fun tk => if tk.id = id then t else tk) s.tickets[i]? := by
  refine ⟨by simp [useTickets.updateTicket], ?_⟩
  intro i
  simp [useTickets.updateTicket, List.getElem?_map]

/-- C7.  A successful delete with identifier `id` removes exactly the
entries whose identifier equals `id`: the resulting list is a sublist of
the prior one (every surviving entry is unchanged and keeps its relative
order), entries with identifier `id` occur zero times afterwards, and
every other entry keeps its exact multiplicity. -/
theorem claim_C7_delete_filters (s : TicketsState) (id : Nat) :
    (useTickets.deleteTicket id (Except.ok ()) s).1.tickets.Sublist
        s.tickets ∧
    (∀ tk : Ticket,
      (useTickets.deleteTicket id (Except.ok ()) s).1.tickets.count tk =
        if tk.id = id then 0 else s.tickets.count tk) ∧
    (useTickets.deleteTicket id (Except.ok ()) s).2.1 =
      { success := true, data := none, error := none } := by
  refine ⟨List.filter_sublist s.tickets, ?_, rfl⟩
  intro tk
  exact count_filter_ne_id s.tickets id tk

/-- C8.  In the minimal axios revision, `authService.logout` removes the
stored `authToken`, returns an already-resolved promise, and issues no
network request. -/
theorem claim_C8_logout (s : Storage) :
    Storage.getItem (authService.logout s).1 "authToken" = none ∧
    (authService.logout s).2.1 = Except.ok () ∧
    (authService.logout s).2.2 = [] :=
  ⟨Storage.getItem_removeItem s "authToken", rfl, rfl⟩

/-- C9.  Whenever `NODE_ENV` is not `'production'`, the two fetch-based
revisions of `getTickets` and `createTicket` agree: for every title and
response they construct the same request (same URL from
`REACT_APP_API_URL` or the localhost default, same method, same JSON
content-type header, same body) and return the same parsed JSON
response. -/
theorem claim_C9_revisions_agree (env : Env) (title : String)
    (getResp createResp : Json) (h : env.nodeEnv ≠ some "production") :
    getTicketsCra env getResp = getTicketsProxy env getResp ∧
    createTicketCra env title createResp
      = createTicketProxy env title createResp := by
  have hbase : apiBaseUrlProxy env = apiBaseUrlCra env := by
    simp [apiBaseUrlProxy, apiBaseUrlCra, h]
  exact ⟨by simp [getTicketsCra, getTicketsProxy, hbase],
    by simp [createTicketCra, createTicketProxy, hbase]⟩

/-- Witness for C9 at a concrete development environment. -/
theorem claim_C9_witness :
    ({ nodeEnv := some "development", reactAppApiUrl := none } :
        Env).nodeEnv ≠ some "production" ∧
    (getTicketsCra { nodeEnv := some "development", reactAppApiUrl := none }
        Json.null =
      getTicketsProxy { nodeEnv := some "development", reactAppApiUrl := none }
        Json.null ∧
    createTicketCra { nodeEnv := some "development", reactAppApiUrl := none }
        "Printer jam" Json.null =
      createTicketProxy
        { nodeEnv := some "development", reactAppApiUrl := none }
        "Printer jam" Json.null) :=
  ⟨by simp, claim_C9_revisions_agree _ "Printer jam" Json.null Json.null
    (by simp)⟩

/-- C10.  In the minimal `App` component, `handleAdd` with a title whose
trimmed form is empty performs no request and leaves the tickets and
title state unchanged; with a title whose trimmed form is non-empty it
issues the create request carrying the original (untrimmed) title, then
resets the title to the empty string and re-fetches the list, whose
parsed response becomes the new tickets state. -/
theorem claim_C10_handleAdd (env : Env) (s : AppComponentState)
    (createResp fetched : Json) :
    (jsTrim s.title = "" →
      App.handleAdd env s createResp fetched = (s, [])) ∧
    (jsTrim s.title ≠ "" →
      App.handleAdd env s createResp fetched =
        ({ tickets := fetched, title := "" },
         [{ url := apiBaseUrlCra env ++ "/tickets", httpMethod := "POST",
            headers := [("Content-Type", "application/json")],
            body := some (Json.obj [("title", Json.str s.title)]) },
          { url := apiBaseUrlCra env ++ "/tickets", httpMethod := "GET",
            headers := [], body := none }])) := by
  constructor
  · intro h
    simp [App.handleAdd, h]
  · intro h
    simp [App.handleAdd, h, createTicketCra, getTicketsCra]

/-- Witness for C10: a whitespace-only title is a no-op; a non-blank
title issues the create and the re-fetch. -/
theorem claim_C10_witness :
    (jsTrim "   " = "" ∧
      App.handleAdd { nodeEnv := none, reactAppApiUrl := none }
          { tickets := Json.arr [], title := "   " } Json.null (Json.arr [])
        = ({ tickets := Json.arr [], title := "   " }, [])) ∧
    (jsTrim "Printer jam" ≠ "" ∧
      App.handleAdd { nodeEnv := none, reactAppApiUrl := none }
          { tickets := Json.arr [], title := "Printer jam" } Json.null
          (Json.arr [Json.null])
        = ({ tickets := Json.arr [Json.null], title := "" },
           [{ url := apiBaseUrlCra
                  { nodeEnv := none, reactAppApiUrl := none } ++ "/tickets",
              httpMethod := "POST",
              headers := [("Content-Type", "application/json")],
              body := some (Json.obj [("title", Json.str "Printer jam")]) },
            { url := apiBaseUrlCra
                  { nodeEnv := none, reactAppApiUrl := none } ++ "/tickets",
              httpMethod := "GET", headers := [], body := none }])) :=
  ⟨⟨by decide,
    (claim_C10_handleAdd { nodeEnv := none, reactAppApiUrl := none }
      { tickets := Json.arr [], title := "   " } Json.null
      (Json.arr [])).1 (by decide)⟩,
   ⟨by decide,
    (claim_C10_handleAdd { nodeEnv := none, reactAppApiUrl := none }
      { tickets := Json.arr [], title := "Printer jam" } Json.null
      (Json.arr [Json.null])).2 (by decide)⟩⟩

end TicketBoard
